import Mathlib

/-!
Verification development for the Simple_Scope oscilloscope capture tool.

Shallow embedding of the Python modules under `Simple_Scope/app/`:
  * `utils.py` / `base_scope_driver.py` : `filename_with_suffix`
  * `config.py`                         : flag setters, recent-directories list
  * `pyvisa_utils.py`                   : `scpiIdParse`, `find_instruments`
  * `simple_scope.py`                   : `auto_setup_scope`
  * `base_scope_driver.py`              : `ScopeDriver.connect`
  * `base_scpi.py`                      : `SCPIMixin.check_errors`
  * `tektronix_scope_driver.py`         : `get_screenshot_brian`

Python strings are modelled as Lean `String`; Python `str.startswith`,
`str.endswith`, `in` (substring), `str.upper` and `str.strip` are modelled
by list-of-character operations with identical behaviour.
-/

namespace SimpleScope

/-- Python `needle in hay` (substring containment), via "needle is a prefix
of some suffix of hay" on the character lists. -/
def subAux (needle : List Char) : List Char → Bool
  | [] => needle.isPrefixOf ([] : List Char)
  | c :: rest => needle.isPrefixOf (c :: rest) || subAux needle rest

/-- Python `needle in hay` for strings. -/
def strContains (hay needle : String) : Bool :=
  subAux needle.data hay.data

/-- Python `s.startswith(t)`. -/
def strStartsWith (s t : String) : Bool :=
  t.data.isPrefixOf s.data

/-- Python `s.endswith(t)`. -/
def strEndsWith (s t : String) : Bool :=
  t.data.isSuffixOf s.data

/-- Python `s.upper()` (ASCII case mapping, as used on the identity fields). -/
def pyUpper (s : String) : String :=
  String.mk (s.data.map Char.toUpper)

/-- Python `s.strip()`: drop whitespace from both ends. -/
def pyStrip (s : String) : String :=
  String.mk (((s.data.dropWhile Char.isWhitespace).reverse.dropWhile
    Char.isWhitespace).reverse)

/-- Python `s.split(",")` on the character list: every comma starts a new
part; the empty string yields one empty part. -/
def splitCommaAux : List Char → List (List Char)
  | [] => [[]]
  | c :: rest =>
      match splitCommaAux rest with
      | [] => [[]]
      | cur :: parts =>
          if c = ',' then [] :: cur :: parts else (c :: cur) :: parts

/-- Python `s.split(",")`. -/
def pySplitComma (s : String) : List String :=
  (splitCommaAux s.data).map String.mk

/- ------------------------------------------------------------------
`utils.py::filename_with_suffix` (identical copy in
`base_scope_driver.py::ScopeDriver.filename_with_suffix`):

    if not suffix.startswith("."):
        suffix = "." + suffix
    if filename.endswith(suffix):
        return filename
    filename = filename + suffix
    return filename
------------------------------------------------------------------ -/

/-- Embedding of `utils.py::filename_with_suffix`. -/
def filename_with_suffix (filename suffix : String) : String :=
  let suffix := if strStartsWith suffix "." then suffix else "." ++ suffix
  if strEndsWith filename suffix then filename else filename ++ suffix

/- ------------------------------------------------------------------
`config.py::AppConfig.set_auto_increment` / `set_datestamp`.
Only the two flags are relevant; `save_config()` is pure persistence.
------------------------------------------------------------------ -/

/-- The two filename-policy flags of `AppConfig`. -/
structure ConfigFlags where
  auto_increment : Bool
  datestamp : Bool
deriving DecidableEq, Repr

/-- Embedding of `config.py::AppConfig.set_auto_increment`: store the flag; if enabled,
clear the datestamp flag. -/
def set_auto_increment (f : ConfigFlags) (enabled : Bool) : ConfigFlags :=
  let f := { f with auto_increment := enabled }
  if enabled then { f with datestamp := false } else f

/-- Embedding of `config.py::AppConfig.set_datestamp`: store the flag; if enabled,
clear the auto-increment flag. -/
def set_datestamp (f : ConfigFlags) (enabled : Bool) : ConfigFlags :=
  let f := { f with datestamp := enabled }
  if enabled then { f with auto_increment := false } else f

/-- One call to either flag setter. -/
inductive FlagOp where
  | setAuto (enabled : Bool)
  | setDate (enabled : Bool)
deriving DecidableEq, Repr

/-- Apply one flag-setter call. -/
def applyFlagOp (f : ConfigFlags) : FlagOp → ConfigFlags
  | .setAuto b => set_auto_increment f b
  | .setDate b => set_datestamp f b

/-- Apply a sequence of flag-setter calls, oldest first. -/
def applyFlagOps (f : ConfigFlags) (ops : List FlagOp) : ConfigFlags :=
  ops.foldl applyFlagOp f

/- ------------------------------------------------------------------
`config.py::AppConfig.set_save_directory`:

    self.config["save_directory"] = str(directory)
    if directory not in self.config["recent_directories"]:
        self.config["recent_directories"].insert(0, str(directory))
        self.config["recent_directories"] = self.config["recent_directories"][:5]
    self.save_config()
------------------------------------------------------------------ -/

/-- The save-directory slice of `AppConfig.config`. -/
structure SaveDirConfig where
  save_directory : String
  recent_directories : List String
deriving DecidableEq, Repr

/-- Embedding of `config.py::AppConfig.set_save_directory`. -/
def set_save_directory (cfg : SaveDirConfig) (directory : String) : SaveDirConfig :=
  let cfg := { cfg with save_directory := directory }
  if cfg.recent_directories.contains directory then cfg
  else { cfg with recent_directories := (directory :: cfg.recent_directories).take 5 }

/-- The empty starting configuration of the claim (fresh config: the default
`recent_directories` is `[]`). -/
def emptySaveDirConfig : SaveDirConfig :=
  { save_directory := "", recent_directories := [] }

/-- Apply a sequence of `set_save_directory` calls, oldest first. -/
def applySetDirs (cfg : SaveDirConfig) (dirs : List String) : SaveDirConfig :=
  dirs.foldl set_save_directory cfg

/-- Keep the first occurrence of each element, dropping later duplicates. -/
def dedupKeepFirst : List String → List String
  | [] => []
  | d :: ds => d :: (dedupKeepFirst ds).filter (fun x => !(x == d))

/-- Modelled from the words of the claim, for comparison with the code: the
"most-recently-set-first, de-duplicated, bounded to 5" list after a call
sequence `dirs` — the distinct directories ordered by how recently they
were last set, most recent first, truncated to 5. -/
def claimedRecentList (dirs : List String) : List String :=
  (dedupKeepFirst dirs.reverse).take 5

/- ------------------------------------------------------------------
the SCPI identity parsing routine
------------------------------------------------------------------ -/

/-- Result dictionary of `scpiIdParse`: the four named fields (each
`None` when unparsed) plus the `"other"` key (`none` when the key is
absent, i.e. at most 4 comma-separated parts). -/
structure IdRecord where
  manufacturer : Option String
  model_num : Option String
  serial_num : Option String
  software_rev : Option String
  other : Option (List String)
deriving DecidableEq, Repr

/-- The all-`None` initial dictionary of `scpiIdParse`. -/
def emptyIdRecord : IdRecord :=
  { manufacturer := none, model_num := none, serial_num := none
    software_rev := none, other := none }

/-- The two length-guarded assignments of `scpiIdParse` applied to the
split parts: exactly 4 parts populate the four fields
(whitespace-stripped); more than 4 parts store the tail under `"other"`. -/
def parseParts (id_parts : List String) : IdRecord :=
  let result :=
    if id_parts.length = 4 then
      { emptyIdRecord with
          manufacturer := some (pyStrip (id_parts.getD 0 ""))
          model_num := some (pyStrip (id_parts.getD 1 ""))
          serial_num := some (pyStrip (id_parts.getD 2 ""))
          software_rev := some (pyStrip (id_parts.getD 3 "")) }
    else emptyIdRecord
  if 4 < id_parts.length then { result with other := some (id_parts.drop 4) }
  else result

/-- Embedding of the SCPI identity parsing routine of `pyvisa_utils.py`: an empty (falsy) identity string
parses to nothing; otherwise split on `","` and apply the length-guarded
assignments. -/
def scpiIdParse (id_string : String) : IdRecord :=
  if id_string = "" then emptyIdRecord
  else parseParts (pySplitComma id_string)

/- ------------------------------------------------------------------
`pyvisa_utils.py::find_instruments`
------------------------------------------------------------------ -/

/-- Outcome of probing one VISA address in `find_instruments`:
the `open_resource` call fails (`pyvisa.VisaIOError`), or it succeeds and
the `*idn?` query fails (`pyvisa.Error`), or the query returns a string. -/
inductive ProbeOutcome where
  | openFail
  | queryFail
  | idn (response : String)
deriving DecidableEq, Repr

/-- Observable session events of the discovery scan. -/
inductive DiscEvent where
  | openOk (addr : String)
  | openFailed (addr : String)
  | queryIdn (addr : String)
  | close (addr : String)
deriving DecidableEq, Repr

/-- One entry of the `find_instruments` result list. -/
structure InstrumentInfo where
  n : Nat
  addr : String
  id : String
  manufacturer : Option String
  model_num : Option String
  serial_num : Option String
  software_rev : Option String
  other : Option (List String)
deriving DecidableEq, Repr

/-- The default per-address dictionary of `find_instruments` before the
probe (`id: "Not known"`, identity fields `None`). -/
def defaultInfo (n : Nat) (addr : String) : InstrumentInfo :=
  { n := n, addr := addr, id := "Not known", manufacturer := none
    model_num := none, serial_num := none, software_rev := none, other := none }

/-- The result entry `find_instruments` records for one address: on any
probe failure the defaults survive; on a successful `*idn?` the stripped
response is stored and the dictionary is updated with `scpiIdParse`. -/
def probeInfo (n : Nat) (addr : String) : ProbeOutcome → InstrumentInfo
  | .openFail => defaultInfo n addr
  | .queryFail => defaultInfo n addr
  | .idn response =>
      let idn := pyStrip response
      let r := scpiIdParse idn
      { n := n, addr := addr, id := idn, manufacturer := r.manufacturer
        model_num := r.model_num, serial_num := r.serial_num
        software_rev := r.software_rev, other := r.other }

/-- The session events one probe emits: a failed open emits no session;
a successful open emits the `*idn?` query attempt and — via the `finally`
block — exactly one `close`. -/
def probeEvents (addr : String) : ProbeOutcome → List DiscEvent
  | .openFail => [.openFailed addr]
  | .queryFail => [.openOk addr, .queryIdn addr, .close addr]
  | .idn _ => [.openOk addr, .queryIdn addr, .close addr]

/-- The enumeration loop of `find_instruments`, carrying the enumeration
index `n`; returns the emitted event trace and the result list. -/
def findAux (n : Nat) : List (String × ProbeOutcome) → List DiscEvent × List InstrumentInfo
  | [] => ([], [])
  | (addr, oc) :: rest =>
      let r := findAux (n + 1) rest
      (probeEvents addr oc ++ r.1, probeInfo n addr oc :: r.2)

/-- Embedding of `pyvisa_utils.py::find_instruments`, over the list of enumerated
addresses paired with the outcome of each probe. -/
def find_instruments (probes : List (String × ProbeOutcome)) :
    List DiscEvent × List InstrumentInfo :=
  findAux 0 probes

/- ------------------------------------------------------------------
`simple_scope.py::SimpleScope.auto_setup_scope`

    for instr in self.instrument_list:
        manufacturer = instr.get("manufacturer", "")
        model_num = instr.get("model_num", "")
        if manufacturer and model_num:
            if "TEKTRONIX" in manufacturer and "MSO5" in model_num:
                ...
                return self.setup_scope(instr["addr"], TektronixScopeDriver)
            elif "LECROY" in manufacturer.upper() and "WAVESURFER" in model_num.upper():
                return False
    return False
------------------------------------------------------------------ -/

/-- Python truthiness of the `manufacturer` / `model_num` dictionary values
(`None` and `""` are falsy). -/
def optTruthy : Option String → Bool
  | none => false
  | some s => !(s == "")

/-- The Tektronix branch guard of `auto_setup_scope`: both fields truthy,
`"TEKTRONIX" in manufacturer` and `"MSO5" in model_num` (case-sensitive). -/
def tekMatch (instr : InstrumentInfo) : Bool :=
  optTruthy instr.manufacturer && optTruthy instr.model_num
    && strContains (instr.manufacturer.getD "") "TEKTRONIX"
    && strContains (instr.model_num.getD "") "MSO5"

/-- The LeCroy branch guard of `auto_setup_scope`: both fields truthy, a
case-insensitive match of `LECROY` / `WAVESURFER`; this branch returns
`False` (placeholder driver). -/
def lecroyMatch (instr : InstrumentInfo) : Bool :=
  optTruthy instr.manufacturer && optTruthy instr.model_num
    && strContains (pyUpper (instr.manufacturer.getD "")) "LECROY"
    && strContains (pyUpper (instr.model_num.getD "")) "WAVESURFER"

/-- Result of `auto_setup_scope`: either the Tektronix driver is
constructed for an address and a connect is attempted, or the method
returns `False`. -/
inductive AutoOutcome where
  | connectTek (addr : String)
  | failure
deriving DecidableEq, Repr

/-- Embedding of `simple_scope.py::SimpleScope.auto_setup_scope` over the instrument
list. -/
def auto_setup_scope : List InstrumentInfo → AutoOutcome
  | [] => .failure
  | instr :: rest =>
      if optTruthy instr.manufacturer && optTruthy instr.model_num then
        if strContains (instr.manufacturer.getD "") "TEKTRONIX"
            && strContains (instr.model_num.getD "") "MSO5" then
          .connectTek instr.addr
        else if strContains (pyUpper (instr.manufacturer.getD "")) "LECROY"
            && strContains (pyUpper (instr.model_num.getD "")) "WAVESURFER" then
          .failure
        else auto_setup_scope rest
      else auto_setup_scope rest

/- ------------------------------------------------------------------
`base_scope_driver.py::ScopeDriver.connect`

    if address is not None:
        self.address = address          # setter re-connects at the new address
    if self.address is None:
        raise ValueError("Device address is not set.")
    self.resource_manager = pyvisa.ResourceManager()
    try:
        self.adaptor = self.resource_manager.open_resource(self.address)
        ...
        return True
    except Exception as e:
        self._log("error", ...)
        return False

`openOk` tells whether `open_resource` succeeds at a given address (the
recursive `connect()` of the address setter opens the same address with the
same outcome and never raises, so the observable result is the outer
outer open). The raise is modelled as `Except.error`.
------------------------------------------------------------------ -/

/-- Embedding of `base_scope_driver.py::ScopeDriver.connect`: `curAddr` is the stored
`self.address`, `addrArg` the optional `address` argument. -/
def connect (openOk : String → Bool) (curAddr addrArg : Option String) :
    Except String Bool :=
  let addr := match addrArg with
    | some a => some a
    | none => curAddr
  match addr with
  | none => Except.error "Device address is not set."
  | some a => if openOk a then Except.ok true else Except.ok false

/- ------------------------------------------------------------------
`base_scpi.py::SCPIMixin.check_errors`

    errors = []
    while True:
        code, message = self.next_error
        if code != 0:
            log.error(...)
            errors.append((code, message))
        else:
            break
    return errors

The instrument is modelled as the stream of parsed `next_error` results
(`SYST:ERR?` answered and parsed to a `(code, message)` pair): `ins k` is
the pair returned by the `k`-th query. The unbounded `while True` loop is
embedded with explicit fuel: `none` means the loop made `fuel` iterations
without terminating.
------------------------------------------------------------------ -/

/-- A fuel-indexed run of the `check_errors` loop starting at the `k`-th
`next_error` response; `some errors` when the loop hits a code 0 within
`fuel` iterations, `none` otherwise. -/
def checkErrorsFuel (ins : Nat → Int × String) : Nat → Nat → Option (List (Int × String))
  | 0, _ => none
  | fuel + 1, k =>
      if (ins k).1 ≠ 0 then
        match checkErrorsFuel ins fuel (k + 1) with
        | some rest => some (ins k :: rest)
        | none => none
      else some []

/-- Termination predicate: `check_errors` terminates on instrument `ins` iff some finite fuel
suffices. -/
def checkErrorsTerminates (ins : Nat → Int × String) : Prop :=
  ∃ fuel, (checkErrorsFuel ins fuel 0).isSome

/-- A pathological instrument whose error-queue responses never include
code 0. -/
def alwaysErrInstrument : Nat → Int × String :=
  fun _ => (5, "error")

/-- The simulated instrument of the claim: error codes `[5, 3, 0]`, then
an empty queue forever. -/
def seq530 : Nat → Int × String
  | 0 => (5, "err five")
  | 1 => (3, "err three")
  | _ => (0, "No error")

/- ------------------------------------------------------------------
`tektronix_scope_driver.py::TektronixScopeDriver.get_screenshot_brian`

    try:
        self.adaptor.write(...SAVE:IMAGe .../temp.png...)
        self.adaptor.query("*OPC?")
        self.adaptor.write(...FILESystem:READFile .../temp.png...)
        img_data = self.adaptor.read_raw(1024*1024)
        self.adaptor.write(...FILESystem:DELEte .../temp.png...)
        return img_data
    except Exception as e:
        code, message = self.next_error     # queries SYST:ERR?
        self._log("error", ...)
        raise

with `_scope_temp_dir = "C:/temp"`. Each transport call either succeeds or
raises; the adaptor oracle fixes the outcome of each call. The function
returns the emitted VISA-operation trace together with `some img` on the
success path and `none` when an exception propagates (after the handler queries
`SYST:ERR?`).
------------------------------------------------------------------ -/

/-- One VISA transport operation issued by the driver. -/
inductive VisaOp where
  | write (cmd : String)
  | query (cmd : String)
  | readRaw (maxBytes : Nat)
deriving DecidableEq, Repr

/-- Transport adaptor oracle: whether each `write` succeeds, what each
`query` answers (`none` = raises), and what each `read_raw` returns
(`none` = raises). Bytes are modelled as `List Nat`. -/
structure Adaptor where
  writeOk : String → Bool
  queryRes : String → Option String
  readRes : Nat → Option (List Nat)

/-- The scope-side temp directory `TektronixScopeDriver._scope_temp_dir`. -/
def scopeTempDir : String := "C:/temp"

/-- The command of step 1: save the screen image to the instrument filesystem. -/
def saveImageCmd : String := "SAVE:IMAGe \"" ++ scopeTempDir ++ "/temp.png\""

/-- The query of step 2: operation-complete synchronization point. -/
def opcCmd : String := "*OPC?"

/-- The command of step 3: read the temp file back from the instrument. -/
def readFileCmd : String := "FILESystem:READFile \"" ++ scopeTempDir ++ "/temp.png\""

/-- The command of step 4: delete the temp file on the instrument. -/
def deleteCmd : String := "FILESystem:DELEte \"" ++ scopeTempDir ++ "/temp.png\""

/-- The `next_error` access of the exception handler: one `SYST:ERR?` query. -/
def errQueryTrace : List VisaOp := [VisaOp.query "SYST:ERR?"]

/-- Embedding of `tektronix_scope_driver.py::get_screenshot_brian`: the emitted
VISA-operation trace and the returned image bytes (`none` = an exception
is re-raised to the caller). -/
def get_screenshot_brian (a : Adaptor) : List VisaOp × Option (List Nat) :=
  let t1 : List VisaOp := [.write saveImageCmd]
  if a.writeOk saveImageCmd then
    let t2 := t1 ++ [.query opcCmd]
    match a.queryRes opcCmd with
    | some _ =>
        let t3 := t2 ++ [.write readFileCmd]
        if a.writeOk readFileCmd then
          let t4 := t3 ++ [.readRaw (1024 * 1024)]
          match a.readRes (1024 * 1024) with
          | some imgData =>
              let t5 := t4 ++ [.write deleteCmd]
              if a.writeOk deleteCmd then (t5, some imgData)
              else (t5 ++ errQueryTrace, none)
          | none => (t4 ++ errQueryTrace, none)
        else (t3 ++ errQueryTrace, none)
    | none => (t2 ++ errQueryTrace, none)
  else (t1 ++ errQueryTrace, none)

/- ==================================================================
Helper lemmas
================================================================== -/

/-- A string always ends with an appended suffix. -/
theorem strEndsWith_append (s t : String) : strEndsWith (s ++ t) t = true := by
  unfold strEndsWith
  rw [String.data_append]
  exact List.isSuffixOf_iff_suffix.mpr (List.suffix_append _ _)

/-- Prepending a dot yields a dot-initial string. -/
theorem strStartsWith_dot (s : String) : strStartsWith ("." ++ s) "." = true := by
  unfold strStartsWith
  rw [String.data_append]
  exact List.isPrefixOf_iff_prefix.mpr ⟨s.data, rfl⟩

/- ==================================================================
Theorems for the claims
================================================================== -/

/-- Claim C9: `filename_with_suffix` is idempotent: applying it twice with the
same suffix (dotted or not) gives the same result as applying it once. -/
theorem filename_with_suffix_idempotent (name sfx : String) :
    filename_with_suffix (filename_with_suffix name sfx) sfx =
      filename_with_suffix name sfx := by
  unfold filename_with_suffix
  by_cases hs : strStartsWith sfx "." = true
  · simp only [hs, if_true]
    by_cases he : strEndsWith name sfx = true
    · simp [he]
    · simp [he, strEndsWith_append]
  · simp only [hs, if_false, Bool.false_eq_true]
    by_cases he : strEndsWith name ("." ++ sfx) = true
    · simp [he]
    · simp [he, strEndsWith_append]

/-- One flag-setter call always leaves the two flags mutually exclusive,
whatever the input state. -/
theorem applyFlagOp_mutex (f : ConfigFlags) (op : FlagOp) :
    ((applyFlagOp f op).auto_increment && (applyFlagOp f op).datestamp) = false := by
  cases op with
  | setAuto b => cases b <;> simp [applyFlagOp, set_auto_increment]
  | setDate b => cases b <;> simp [applyFlagOp, set_datestamp]

/-- Claim C7: from a state where the auto-increment and datestamp flags are not
both true, any sequence of `set_auto_increment` / `set_datestamp` calls
keeps them not-both-true; in particular setting either flag true leaves
the other false. -/
theorem flags_mutual_exclusion (f : ConfigFlags) (ops : List FlagOp)
    (h : (f.auto_increment && f.datestamp) = false) :
    ((applyFlagOps f ops).auto_increment && (applyFlagOps f ops).datestamp) = false ∧
    (∀ g : ConfigFlags, (set_auto_increment g true).datestamp = false) ∧
    (∀ g : ConfigFlags, (set_datestamp g true).auto_increment = false) := by
  refine ⟨?_, fun g => by simp [set_auto_increment], fun g => by simp [set_datestamp]⟩
  induction ops generalizing f with
  | nil => exact h
  | cons op rest ih => exact ih (applyFlagOp f op) (applyFlagOp_mutex f op)

/-- Claim C7 witness: starting from both flags clear, enabling auto-increment
then datestamp never leaves both flags true. -/
theorem flags_mutual_exclusion_witness :
    ((applyFlagOps ⟨false, false⟩ [.setAuto true, .setDate true]).auto_increment &&
      (applyFlagOps ⟨false, false⟩ [.setAuto true, .setDate true]).datestamp) = false ∧
    (∀ g : ConfigFlags, (set_auto_increment g true).datestamp = false) ∧
    (∀ g : ConfigFlags, (set_datestamp g true).auto_increment = false) :=
  flags_mutual_exclusion ⟨false, false⟩ [.setAuto true, .setDate true] rfl

/-- Claim C2 counterexample: calling `connect` with the address unset raises
`ValueError` (`Except.error`), it does not return `False`. -/
theorem connect_unset_address_raises :
    connect (fun _ => true) none none = Except.error "Device address is not set." := rfl

/-- Claim C2 amended: with the address unset, `connect` raises `ValueError`;
when the transport open fails (stored or argument address), it returns
`False` and the failure is only logged. -/
theorem connect_amended (openOk : String → Bool) (a : String)
    (h : openOk a = false) :
    connect openOk none none = Except.error "Device address is not set." ∧
    connect openOk (some a) none = Except.ok false ∧
    connect openOk none (some a) = Except.ok false := by
  refine ⟨rfl, ?_, ?_⟩ <;> simp [connect, h]

/-- Claim C2 witness: a transport that refuses to open makes `connect` return
`False` at a concrete address, and the unset-address call raises. -/
theorem connect_amended_witness :
    connect (fun _ => false) none none = Except.error "Device address is not set." ∧
    connect (fun _ => false) (some "GPIB0::1::INSTR") none = Except.ok false ∧
    connect (fun _ => false) none (some "GPIB0::1::INSTR") = Except.ok false :=
  connect_amended (fun _ => false) "GPIB0::1::INSTR" rfl

/-- On an instrument that never reports code 0, the `check_errors` loop
makes no progress towards termination: every fuel bound is exhausted. -/
theorem checkErrorsFuel_alwaysErr (fuel k : Nat) :
    checkErrorsFuel alwaysErrInstrument fuel k = none := by
  induction fuel generalizing k with
  | zero => rfl
  | succ m ih => simp [checkErrorsFuel, alwaysErrInstrument, ih]

/-- The `check_errors` loop, started anywhere, collects exactly the
(code, message) pairs preceding the first code-0 response, in order. -/
theorem checkErrorsFuel_collects (ins : Nat → Int × String) :
    ∀ (n k fuel : Nat), (ins (k + n)).1 = 0 → (∀ j, j < n → (ins (k + j)).1 ≠ 0) →
      n < fuel →
      checkErrorsFuel ins fuel k = some ((List.range n).map (fun j => ins (k + j))) := by
  intro n
  induction n with
  | zero =>
      intro k fuel h0 _ hf
      have h0' : (ins k).1 = 0 := by simpa using h0
      match fuel, hf with
      | m + 1, _ => simp [checkErrorsFuel, h0']
  | succ n ih =>
      intro k fuel h0 hnz hf
      match fuel, hf with
      | m + 1, hf =>
        have hk : (ins k).1 ≠ 0 := by
          have := hnz 0 (Nat.succ_pos n)
          simpa using this
        have hrec : checkErrorsFuel ins m (k + 1) =
            some ((List.range n).map (fun j => ins (k + 1 + j))) := by
          apply ih
          · have : k + 1 + n = k + (n + 1) := by omega
            rw [this]; exact h0
          · intro j hj
            have : k + 1 + j = k + (j + 1) := by omega
            rw [this]; exact hnz (j + 1) (by omega)
          · omega
        simp only [checkErrorsFuel, hk, if_true, hrec, ne_eq, not_false_eq_true, ite_true]
        congr 1
        rw [List.range_succ_eq_map, List.map_cons, List.map_map]
        congr 1
        apply List.map_congr_left
        intro a _
        simp [Function.comp]
        congr 1
        omega

/-- Claim C4 amended: `check_errors` collects exactly the non-zero
(code, message) pairs the instrument returns before the first code 0, in
order; but the loop is not itself timeout-guarded — on an instrument whose
responses never include code 0 it never terminates (no fuel bound
suffices). -/
theorem check_errors_amended (ins : Nat → Int × String) (n fuel : Nat)
    (h0 : (ins n).1 = 0) (hnz : ∀ j, j < n → (ins j).1 ≠ 0) (hf : n < fuel) :
    checkErrorsFuel ins fuel 0 = some ((List.range n).map ins) ∧
    ¬ checkErrorsTerminates alwaysErrInstrument := by
  constructor
  · have := checkErrorsFuel_collects ins n 0 fuel (by simpa using h0)
      (fun j hj => by simpa using hnz j hj) hf
    simpa using this
  · rintro ⟨g, hg⟩
    rw [checkErrorsFuel_alwaysErr] at hg
    simp at hg

/-- Claim C4 witness: the simulated `[5, 3, 0]` instrument yields exactly the
two records `(5, ...)`, `(3, ...)` in order, and the never-zero instrument
does not terminate. -/
theorem check_errors_amended_witness :
    checkErrorsFuel seq530 3 0 = some [(5, "err five"), (3, "err three")] ∧
    ¬ checkErrorsTerminates alwaysErrInstrument := by
  have h := check_errors_amended seq530 2 3 rfl (by decide) (by decide)
  refine ⟨?_, h.2⟩
  rw [h.1]; rfl

/-- Claim C4 counterexample: the timeout-guard assertion of the claim fails — on an
instrument whose error-queue responses never include code 0, the
`check_errors` loop does not terminate. -/
theorem check_errors_no_timeout_guard :
    ¬ checkErrorsTerminates alwaysErrInstrument := by
  rintro ⟨g, hg⟩
  rw [checkErrorsFuel_alwaysErr] at hg
  simp at hg

/-- Claim C1: on the success path (every transport call succeeds), the
screenshot capture performs exactly, in order: the save-image write, the
blocking `*OPC?` query, the read-file write followed by one raw read
bounded to 1 MiB, and the delete write — and returns exactly the bytes of the raw
read. -/
theorem get_screenshot_success_path (a : Adaptor) (img : List Nat) (opc : String)
    (h1 : a.writeOk saveImageCmd = true)
    (h2 : a.queryRes opcCmd = some opc)
    (h3 : a.writeOk readFileCmd = true)
    (h4 : a.readRes (1024 * 1024) = some img)
    (h5 : a.writeOk deleteCmd = true) :
    get_screenshot_brian a =
      ([.write saveImageCmd, .query opcCmd, .write readFileCmd,
        .readRaw (1024 * 1024), .write deleteCmd], some img) := by
  simp [get_screenshot_brian, h1, h2, h3, h4, h5]

/-- An adaptor on which every transport call succeeds. -/
def okAdaptor : Adaptor :=
  { writeOk := fun _ => true
    queryRes := fun _ => some "1"
    readRes := fun _ => some [137, 80, 78, 71] }

/-- Claim C1 witness: the success path evaluated on a concrete adaptor. -/
theorem get_screenshot_success_path_witness :
    get_screenshot_brian okAdaptor =
      ([.write saveImageCmd, .query opcCmd, .write readFileCmd,
        .readRaw (1024 * 1024), .write deleteCmd], some [137, 80, 78, 71]) :=
  get_screenshot_success_path okAdaptor [137, 80, 78, 71] "1" rfl rfl rfl rfl rfl

/-- An adaptor on which only the delete-temp-file write fails. -/
def badDeleteAdaptor : Adaptor :=
  { writeOk := fun c => !(c == deleteCmd)
    queryRes := fun _ => some "1"
    readRes := fun _ => some [137, 80, 78, 71] }

/-- Claim C5 counterexample: when the delete step fails after the image bytes
were read back successfully, the capture does not return the bytes — the
exception propagates (`none`). -/
theorem delete_failure_not_returned :
    badDeleteAdaptor.readRes (1024 * 1024) = some [137, 80, 78, 71] ∧
    (get_screenshot_brian badDeleteAdaptor).2 = none := by
  refine ⟨rfl, ?_⟩
  rfl

/-- Claim C5 amended: if the delete step fails after the bytes were read, the
handler queries the instrument error queue, logs, and re-raises: the
capture fails (returns no bytes) rather than succeeding with the image. -/
theorem delete_failure_amended (a : Adaptor) (img : List Nat) (opc : String)
    (h1 : a.writeOk saveImageCmd = true)
    (h2 : a.queryRes opcCmd = some opc)
    (h3 : a.writeOk readFileCmd = true)
    (h4 : a.readRes (1024 * 1024) = some img)
    (h5 : a.writeOk deleteCmd = false) :
    get_screenshot_brian a =
      ([.write saveImageCmd, .query opcCmd, .write readFileCmd,
        .readRaw (1024 * 1024), .write deleteCmd, .query "SYST:ERR?"], none) := by
  simp [get_screenshot_brian, errQueryTrace, h1, h2, h3, h4, h5]

/-- Claim C5 amended witness: the delete-failure path evaluated on a concrete
adaptor whose delete write raises. -/
theorem delete_failure_amended_witness :
    get_screenshot_brian badDeleteAdaptor =
      ([.write saveImageCmd, .query opcCmd, .write readFileCmd,
        .readRaw (1024 * 1024), .write deleteCmd, .query "SYST:ERR?"], none) :=
  delete_failure_amended badDeleteAdaptor [137, 80, 78, 71] "1"
    (by decide) rfl (by decide) rfl (by decide)

/-- Each discovery probe produces exactly as many `close` events as
successful opens, whatever the outcome and address. -/
theorem probeEvents_close_balance (a addr : String) (oc : ProbeOutcome) :
    (probeEvents a oc).count (DiscEvent.close addr) =
      (probeEvents a oc).count (DiscEvent.openOk addr) := by
  cases oc <;> by_cases h : a = addr <;>
    simp [probeEvents, List.count_cons, List.count_nil, h]

/-- The recorded entry of a probe always carries the probed address. -/
theorem probeInfo_addr (n : Nat) (addr : String) (oc : ProbeOutcome) :
    (probeInfo n addr oc).addr = addr := by
  cases oc <;> simp [probeInfo, defaultInfo]

/-- The recorded entry of a probe always carries the enumeration index. -/
theorem probeInfo_n (n : Nat) (addr : String) (oc : ProbeOutcome) :
    (probeInfo n addr oc).n = n := by
  cases oc <;> simp [probeInfo, defaultInfo]

/-- The discovery loop records one entry per probed address, in order. -/
theorem findAux_addrs (n : Nat) (ps : List (String × ProbeOutcome)) :
    ((findAux n ps).2).map InstrumentInfo.addr = ps.map Prod.fst := by
  induction ps generalizing n with
  | nil => rfl
  | cons p rest ih => simp [findAux, probeInfo_addr, ih]

/-- The discovery loop numbers the entries consecutively from `n`. -/
theorem findAux_ns (n : Nat) (ps : List (String × ProbeOutcome)) :
    ((findAux n ps).2).map InstrumentInfo.n = List.range' n ps.length := by
  induction ps generalizing n with
  | nil => rfl
  | cons p rest ih => simp [findAux, probeInfo_n, ih, List.range'_succ]

/-- The event trace of the discovery loop balances closes against successful
opens for every address. -/
theorem findAux_close_balance (n : Nat) (ps : List (String × ProbeOutcome))
    (addr : String) :
    ((findAux n ps).1).count (DiscEvent.close addr) =
      ((findAux n ps).1).count (DiscEvent.openOk addr) := by
  induction ps generalizing n with
  | nil => rfl
  | cons p rest ih =>
      simp only [findAux, List.count_append]
      rw [probeEvents_close_balance, ih]

/-- Claim C6: for every sequence of discovery probe outcomes (identity query
succeeds, identity query raises, open fails), every successfully opened
transient session is closed exactly once — the closes in the trace balance
the successful opens per address — and every address still contributes one
result entry, in enumeration order with consecutive indices. -/
theorem find_instruments_cleanup (probes : List (String × ProbeOutcome)) :
    ((find_instruments probes).2).map InstrumentInfo.addr = probes.map Prod.fst ∧
    ((find_instruments probes).2).map InstrumentInfo.n = List.range probes.length ∧
    ∀ addr : String,
      ((find_instruments probes).1).count (DiscEvent.close addr) =
        ((find_instruments probes).1).count (DiscEvent.openOk addr) := by
  refine ⟨findAux_addrs 0 probes, ?_, fun addr => findAux_close_balance 0 probes addr⟩
  rw [List.range_eq_range']
  exact findAux_ns 0 probes

/-- Unfolding `auto_setup_scope` one entry at a time, phrased with the
branch guards. -/
theorem auto_setup_scope_cons (i : InstrumentInfo) (rest : List InstrumentInfo) :
    auto_setup_scope (i :: rest) =
      if tekMatch i then .connectTek i.addr
      else if lecroyMatch i then .failure
      else auto_setup_scope rest := by
  simp only [auto_setup_scope, tekMatch, lecroyMatch]
  by_cases hg : (optTruthy i.manufacturer && optTruthy i.model_num) = true
  · simp only [hg, if_true, Bool.true_and]
  · simp only [hg, if_false, Bool.false_eq_true]
    rw [Bool.not_eq_true] at hg
    simp [hg]

/-- When no entry matches the Tektronix guard, `auto_setup_scope` returns
failure. -/
theorem auto_setup_scope_no_match (entries : List InstrumentInfo)
    (h : ∀ e ∈ entries, tekMatch e = false) :
    auto_setup_scope entries = .failure := by
  induction entries with
  | nil => rfl
  | cons i rest ih =>
      rw [auto_setup_scope_cons, h i (by simp)]
      by_cases hl : lecroyMatch i = true
      · simp [hl]
      · rw [Bool.not_eq_true] at hl
        simp only [hl, Bool.false_eq_true, if_false]
        exact ih (fun e he => h e (by simp [he]))

/-- Claim C3 amended: `auto_setup_scope` selects the first entry matching the
Tektronix guard (manufacturer contains `"TEKTRONIX"` case-sensitively,
model contains `"MSO5"`, both fields truthy) and attempts to connect the
Tektronix driver at its address — provided no earlier entry matches the
LeCroy placeholder guard, which instead aborts the scan with failure; if
no entry matches the Tektronix guard, it returns failure without
raising. -/
theorem auto_setup_amended (entries : List InstrumentInfo) :
    ((∀ e ∈ entries, tekMatch e = false) → auto_setup_scope entries = .failure) ∧
    (∀ pre e post, entries = pre ++ e :: post → tekMatch e = true →
      (∀ p ∈ pre, tekMatch p = false ∧ lecroyMatch p = false) →
      auto_setup_scope entries = .connectTek e.addr) := by
  refine ⟨auto_setup_scope_no_match entries, ?_⟩
  intro pre
  induction pre generalizing entries with
  | nil =>
      intro e post hsplit he _
      subst hsplit
      simp [auto_setup_scope_cons, he]
  | cons p pre' ih =>
      intro e post hsplit he hpre
      subst hsplit
      have hp := hpre p (by simp)
      rw [List.cons_append, auto_setup_scope_cons, hp.1, hp.2]
      simp only [Bool.false_eq_true, if_false]
      exact ih (pre' ++ e :: post) e post rfl he
        (fun q hq => hpre q (by simp [hq]))

/-- A discovered LeCroy WaveSurfer entry. -/
def demoLecroyEntry : InstrumentInfo :=
  { defaultInfo 0 "USB0::LECROY::INSTR" with
      manufacturer := some "LeCroy", model_num := some "WaveSurfer 510" }

/-- A discovered Tektronix MSO5-family entry. -/
def demoTekEntry : InstrumentInfo :=
  { defaultInfo 1 "USB0::TEK::INSTR" with
      manufacturer := some "TEKTRONIX", model_num := some "MSO54" }

/-- Claim C3 counterexample: with a LeCroy WaveSurfer entry listed before a
matching Tektronix entry, `auto_setup_scope` returns failure instead of
selecting the first Tektronix-matching entry. -/
theorem auto_setup_counterexample :
    tekMatch demoTekEntry = true ∧
    auto_setup_scope [demoLecroyEntry, demoTekEntry] = .failure := by
  refine ⟨by decide, by decide⟩

/-- Claim C3 witness: a list whose head is the matching Tektronix entry makes
`auto_setup_scope` construct and connect the driver at its address. -/
theorem auto_setup_amended_witness :
    auto_setup_scope [demoTekEntry] = .connectTek "USB0::TEK::INSTR" :=
  (auto_setup_amended [demoTekEntry]).2 [] demoTekEntry [] rfl (by decide)
    (by intro p hp; simp at hp)

/-- The recent-directories list after one `set_save_directory` call:
unchanged when the directory is already listed, otherwise front-inserted
and truncated to 5. -/
theorem set_save_directory_recent (cfg : SaveDirConfig) (d : String) :
    (set_save_directory cfg d).recent_directories =
      if cfg.recent_directories.contains d then cfg.recent_directories
      else (d :: cfg.recent_directories).take 5 := by
  by_cases h : d ∈ cfg.recent_directories <;> simp [set_save_directory, h]

/-- The bounded-length and no-duplicates invariants of the
recent-directories list are preserved by any call sequence. -/
theorem applySetDirs_invariant (ds : List String) (cfg : SaveDirConfig)
    (h1 : cfg.recent_directories.length ≤ 5)
    (h2 : cfg.recent_directories.Nodup) :
    (applySetDirs cfg ds).recent_directories.length ≤ 5 ∧
    (applySetDirs cfg ds).recent_directories.Nodup := by
  induction ds generalizing cfg with
  | nil => exact ⟨h1, h2⟩
  | cons d rest ih =>
      apply ih
      · rw [set_save_directory_recent]
        by_cases h : d ∈ cfg.recent_directories
        · simpa [h] using h1
        · simp [h, List.length_take]
      · rw [set_save_directory_recent]
        by_cases h : d ∈ cfg.recent_directories
        · simpa [h] using h2
        · have : (if cfg.recent_directories.contains d then cfg.recent_directories
              else (d :: cfg.recent_directories).take 5) =
              (d :: cfg.recent_directories).take 5 := by simp [h]
          rw [this]
          exact List.Nodup.sublist (List.take_sublist _ _)
            (List.nodup_cons.mpr ⟨h, h2⟩)

/-- Claim C8 amended: after any call sequence from the empty configuration, the
recent-directories list has length at most 5 and no duplicates; each call
inserts a not-yet-listed directory at the front (truncating to 5) and
leaves the list unchanged for an already-listed directory — so the order
is most-recently-first-set, not most-recently-set. -/
theorem recent_dirs_amended (ds : List String) :
    (applySetDirs emptySaveDirConfig ds).recent_directories.length ≤ 5 ∧
    (applySetDirs emptySaveDirConfig ds).recent_directories.Nodup ∧
    ∀ (cfg : SaveDirConfig) (d : String),
      (set_save_directory cfg d).recent_directories =
        if cfg.recent_directories.contains d then cfg.recent_directories
        else (d :: cfg.recent_directories).take 5 := by
  have h := applySetDirs_invariant ds emptySaveDirConfig (by simp [emptySaveDirConfig])
    (by simp [emptySaveDirConfig])
  exact ⟨h.1, h.2, set_save_directory_recent⟩

/-- Claim C8 counterexample: setting `a`, then `b`, then `a` again leaves the
list `["b", "a"]`, while the claimed most-recently-set-first order is
`["a", "b"]` — re-setting a listed directory does not move it to the
front. -/
theorem recent_dirs_counterexample :
    (applySetDirs emptySaveDirConfig ["a", "b", "a"]).recent_directories = ["b", "a"] ∧
    claimedRecentList ["a", "b", "a"] = ["a", "b"] ∧
    (applySetDirs emptySaveDirConfig ["a", "b", "a"]).recent_directories ≠
      claimedRecentList ["a", "b", "a"] := by
  refine ⟨by decide, by decide, by decide⟩

/-- With more than 4 comma-separated parts, the parser leaves all four
named fields absent and stores the tail under `"other"`. -/
theorem parseParts_long (l : List String) (h : 4 < l.length) :
    parseParts l = { emptyIdRecord with other := some (l.drop 4) } := by
  have h4 : ¬ l.length = 4 := by omega
  simp [parseParts, h4, h]

/-- Whenever the part count differs from 4, the manufacturer field stays
absent. -/
theorem parseParts_manufacturer_none (l : List String) (h : l.length ≠ 4) :
    (parseParts l).manufacturer = none := by
  simp only [parseParts, h, if_false]
  split <;> rfl

/-- The parser `scpiIdParse` leaves the manufacturer absent unless the identity
string splits into exactly 4 parts. -/
theorem scpiIdParse_manufacturer_none (t : String)
    (h : (pySplitComma t).length ≠ 4) :
    (scpiIdParse t).manufacturer = none := by
  unfold scpiIdParse
  split
  · rfl
  · exact parseParts_manufacturer_none _ h

/-- Claim C10: for an identity string with more than 4 comma-separated parts,
all four named fields stay absent and the extra parts land under
`"other"`; only an exactly-4-part string populates the fields; and the
discovery entry built from such a response never matches the
Tektronix guard. -/
theorem scpi_parser_extra_fields (s : String) (n : Nat) (addr : String)
    (h : 4 < (pySplitComma s).length)
    (ht : 4 < (pySplitComma (pyStrip s)).length) :
    scpiIdParse s = { emptyIdRecord with other := some ((pySplitComma s).drop 4) } ∧
    (∀ t : String, (scpiIdParse t).manufacturer ≠ none →
      (pySplitComma t).length = 4) ∧
    tekMatch (probeInfo n addr (ProbeOutcome.idn s)) = false := by
  refine ⟨?_, ?_, ?_⟩
  · have hs : ¬ s = "" := by
      intro e
      rw [e] at h
      exact absurd h (by decide)
    unfold scpiIdParse
    rw [if_neg hs]
    exact parseParts_long _ h
  · intro t hman
    by_contra hlen
    exact hman (scpiIdParse_manufacturer_none t hlen)
  · have hm : (scpiIdParse (pyStrip s)).manufacturer = none :=
      scpiIdParse_manufacturer_none _ (by omega)
    simp [tekMatch, probeInfo, hm, optTruthy]

/-- Claim C10 witness: a concrete 5-field identity response parses to absent
named fields with the extra part under `"other"`, and its discovery entry
is not matched. -/
theorem scpi_parser_extra_fields_witness :
    scpiIdParse "TEKTRONIX,MSO54,SN123,FV:1.2,EXTRA" =
      { emptyIdRecord with other := some ["EXTRA"] } ∧
    (∀ t : String, (scpiIdParse t).manufacturer ≠ none →
      (pySplitComma t).length = 4) ∧
    tekMatch (probeInfo 0 "USB0::X::INSTR"
      (ProbeOutcome.idn "TEKTRONIX,MSO54,SN123,FV:1.2,EXTRA")) = false := by
  have h := scpi_parser_extra_fields "TEKTRONIX,MSO54,SN123,FV:1.2,EXTRA"
    0 "USB0::X::INSTR" (by decide) (by decide)
  refine ⟨?_, h.2.1, h.2.2⟩
  rw [h.1]
  rfl

end SimpleScope
